import Mathlib

/-!
Verification of the digest / cache-invalidation subsystem of the
cairo-lang-language-server project model
(crates/cairo-lang-language-server/src/project/digests.rs and
crates/cairo-lang-language-server/src/project/cairo_project.rs).

The Rust code is shallowly embedded: the Salsa database is explicit state
(an interner table plus the process-wide I/O-error nonce counter), the
side effects reported to Salsa (synthetic reads, untracked reads, error
logs) are an explicit event trace, and the filesystem is a function from
paths to read results. External collaborators that are not part of the
supplied sources (the xxh3 hash, std path absolutization, ProjectConfig
parsing) are parameters or are modelled from the spec, as marked.
-/

/-- Size of the usize / u64 value space on the 64-bit targets the
language server runs on. -/
def USIZE : Nat := 2 ^ 64

/-- Model of a filesystem path: an absoluteness flag plus the ordered
list of components. The file name is the last component. -/
structure FsPath where
  absolute : Bool
  components : List String
deriving DecidableEq, Repr

/-- Model of Rust Path.file_name: the last component, none for an empty
path. -/
def FsPath.fileName (p : FsPath) : Option String :=
  p.components.getLast?

/-- Model of Rust Path.join: an absolute right operand replaces the base. -/
def FsPath.join (base p : FsPath) : FsPath :=
  if p.absolute then p else FsPath.mk base.absolute (base.components ++ p.components)

/-- PROJECT_FILE_NAME from the cairo-lang-project crate: the name of the
cairo project manifest file. -/
def PROJECT_FILE_NAME : String := "cairo_project.toml"

/-- SCARB_TOML from the toolchain module: the Scarb manifest file name. -/
def SCARB_TOML : String := "Scarb.toml"

/-- SCARB_LOCK from the toolchain module: the Scarb lock file name. -/
def SCARB_LOCK : String := "Scarb.lock"

/-- An opaque wrapper over a path that refers to a file relevant for
project analysis (struct Digestible in digests.rs). -/
structure Digestible where
  path : FsPath
deriving DecidableEq, Repr

/-- Digestible::try_new from digests.rs: returns some only when the file
name is PROJECT_FILE_NAME, SCARB_TOML or SCARB_LOCK; then attempts
absolutization (the environment function absPath models std path
absolute, which can fail) and on failure falls back to the raw path. -/
def Digestible.try_new (absPath : FsPath → Option FsPath) (path : FsPath) :
    Option Digestible :=
  match path.fileName with
  | none => none
  | some name =>
    if name = PROJECT_FILE_NAME ∨ name = SCARB_TOML ∨ name = SCARB_LOCK then
      some (Digestible.mk ((absPath path).getD path))
    else
      none

/-- The three digest state kinds (enum DigestKind in digests.rs): content
hash of an existing file, absent file, or an I/O-error occurrence tagged
with a fresh nonce. -/
inductive DigestKind where
  | Ok : Nat → DigestKind
  | FileNotFound : DigestKind
  | IoError : Nat → DigestKind
deriving DecidableEq, Repr

/-- An opaque object carrying the digest of a file (struct Digest in
digests.rs). -/
structure Digest where
  kind : DigestKind
deriving DecidableEq, Repr

/-- Digest::ok from digests.rs. -/
def Digest.ok (hash : Nat) : Digest :=
  Digest.mk (DigestKind.Ok hash)

/-- Digest::file_not_found from digests.rs. -/
def Digest.file_not_found : Digest :=
  Digest.mk (DigestKind.FileNotFound)

/-- Digest::io_error from digests.rs: draws the current value of the
process-wide atomic counter as the nonce and stores the incremented
value back (fetch_add wraps around at the usize boundary). The counter
is explicit state here; the process starts it at zero. -/
def Digest.io_error (counter : Nat) : Digest × Nat :=
  (Digest.mk (DigestKind.IoError counter), (counter + 1) % USIZE)

/-- Modelled from the spec: the Salsa interner behind define_short_id
(DigestId) and intern_digest, which are not part of the supplied
sources. The table is the list of identities in allocation order; the
handle is the index. intern returns the existing handle when the
identity was seen before, else allocates a new one at the end. -/
def intern_digest : List Digestible → Digestible → Nat × List Digestible
  | [], d => (0, [d])
  | x :: xs, d =>
    if x = d then (0, x :: xs)
    else
      let r := intern_digest xs d
      (r.1 + 1, x :: r.2)

/-- Modelled from the spec: lookup_intern_digest, the inverse direction
of the interner; total only on handles produced by this interner. -/
def lookup_intern_digest (tbl : List Digestible) (id : Nat) : Option Digestible :=
  tbl.get? id

/-- Durability levels of the Salsa engine relevant here. -/
inductive Durability where
  | LOW
  | HIGH
deriving DecidableEq, Repr

/-- Observable side effects of the subsystem: the reports made to the
Salsa runtime plus the log calls. -/
inductive Event where
  | syntheticRead : Durability → Event
  | fsRead : FsPath → Event
  | untrackedRead : Event
  | logError : Event
deriving DecidableEq, Repr

/-- Kinds of I/O failure distinguished by the digest computation:
ErrorKind NotFound versus every other error kind. -/
inductive IoErrorKind where
  | notFound
  | other
deriving DecidableEq, Repr

/-- Result of fs read on one path: the full byte content, or an I/O
failure of some kind. -/
inductive ReadResult where
  | ok : List Nat → ReadResult
  | ioFailure : IoErrorKind → ReadResult
deriving DecidableEq, Repr

/-- The explicit state of the Salsa database slice used by this
subsystem: the digest interner table and the process-wide I/O-error
nonce counter. -/
structure Db where
  interner : List Digestible
  counter : Nat
deriving DecidableEq, Repr

/-- The digest query function (fn digest in digests.rs): looks up the
interned identity (none on a foreign handle, which is a fatal
programming error in the original), reports a synthetic LOW-durability
read to Salsa, then reads the file and classifies the outcome. The hash
parameter models the external xxh3_64 function, truncated to 64 bits;
the fs parameter is the filesystem. Returns the digest, the updated
state and the emitted event trace in order. -/
def digest (hash : List Nat → Nat) (fs : FsPath → ReadResult) (db : Db)
    (id : Nat) : Option (Digest × Db × List Event) :=
  match lookup_intern_digest db.interner id with
  | none => none
  | some dgb =>
    let evs := [Event.syntheticRead Durability.LOW, Event.fsRead dgb.path]
    match fs dgb.path with
    | ReadResult.ok bytes =>
      some (Digest.ok (hash bytes % USIZE), db, evs)
    | ReadResult.ioFailure IoErrorKind.notFound =>
      some (Digest.file_not_found, db, evs)
    | ReadResult.ioFailure IoErrorKind.other =>
      let r := Digest.io_error db.counter
      some (r.1, Db.mk db.interner r.2, evs)

/-- report_digest_dependency from digests.rs: tries to build a
Digestible from the raw path; on rejection logs an error and returns
with the database untouched; on acceptance interns the identity and
invokes the digest query on the resulting handle. -/
def report_digest_dependency (hash : List Nat → Nat) (fs : FsPath → ReadResult)
    (absPath : FsPath → Option FsPath) (db : Db) (path : FsPath) :
    Db × List Event :=
  match Digestible.try_new absPath path with
  | none => (db, [Event.logError])
  | some dgb =>
    let r := intern_digest db.interner dgb
    let db1 := Db.mk r.2 db.counter
    match digest hash fs db1 r.1 with
    | none => (db1, [])
    | some q => (q.2.1, q.2.2)

/-- Errors that ProjectConfig::from_file can produce, classified the way
project_crates classifies them: a root-cause std io Error versus a
deterministic parse or schema failure. -/
inductive ConfigError where
  | ioError
  | parseError
deriving DecidableEq, Repr

/-- Modelled from the spec: the parsed ProjectConfig of the
cairo-lang-project crate, which is not part of the supplied sources. It
carries the manifest base path, the declared crate roots in manifest
order, the per-crate configuration table and the default settings value
used for absent entries. Settings are an arbitrary type S. -/
structure ProjectConfig (S : Type) where
  base_path : FsPath
  crate_roots : List (String × FsPath)
  crates_config : List (String × S)
  default_settings : S

/-- Modelled from the spec: ProjectConfig::absolute_crate_root, the
manifest-relative resolution of a declared crate root. -/
def ProjectConfig.absolute_crate_root {S : Type} (cfg : ProjectConfig S)
    (root : FsPath) : FsPath :=
  cfg.base_path.join root

/-- Modelled from the spec: the crates_config get operation, returning
the table entry for a crate name and the default settings value when the
entry is absent. -/
def ProjectConfig.crates_config_get {S : Type} (cfg : ProjectConfig S)
    (name : String) : S :=
  match cfg.crates_config.lookup name with
  | some s => s
  | none => cfg.default_settings

/-- A crate descriptor as produced by project_crates (struct Crate of
the project model): name, absolute root, optional custom main file stem
and per-crate settings. -/
structure Crate (S : Type) where
  name : String
  root : FsPath
  custom_main_file_stem : Option String
  settings : S
deriving DecidableEq

/-- project_crates from cairo_project.rs: reports a digest dependency on
the manifest path, reports a synthetic LOW-durability read, then parses
the manifest (loadConfig models ProjectConfig::from_file). On failure it
reports an untracked read exactly when the root cause is an I/O error,
logs the error, and returns an empty crate list; on success it maps each
declared crate root to a descriptor in manifest order. Returns the crate
list, the updated state and the emitted event trace in order. -/
def project_crates {S : Type} (hash : List Nat → Nat) (fs : FsPath → ReadResult)
    (absPath : FsPath → Option FsPath)
    (loadConfig : FsPath → Except ConfigError (ProjectConfig S))
    (db : Db) (manifest_path : FsPath) :
    List (Crate S) × Db × List Event :=
  let r := report_digest_dependency hash fs absPath db manifest_path
  let evs := r.2 ++ [Event.syntheticRead Durability.LOW]
  match loadConfig manifest_path with
  | Except.error e =>
    let extra := if e = ConfigError.ioError then [Event.untrackedRead] else []
    ([], r.1, evs ++ extra ++ [Event.logError])
  | Except.ok cfg =>
    (cfg.crate_roots.map (fun nr =>
        Crate.mk nr.1 (cfg.absolute_crate_root nr.2) none
          (cfg.crates_config_get nr.1)),
      r.1, evs)

/-- The sequence of digests produced by n successive invocations of
Digest::io_error in one process run, starting from the initial counter
value zero, together with the final counter value. -/
def ioErrorTrace : Nat → List Digest × Nat
  | 0 => ([], 0)
  | n + 1 =>
    let r := ioErrorTrace n
    let d := Digest.io_error r.2
    (r.1 ++ [d.1], d.2)

/-! ## Concrete fixtures used by witnesses -/

/-- A directory component used in concrete fixtures. -/
def wsA : String := "ws"

/-- A non-trackable file name used in concrete fixtures. -/
def txtName : String := "notes.txt"

/-- A concrete path to a cairo project manifest. -/
def pathA : FsPath := FsPath.mk true [wsA, PROJECT_FILE_NAME]

/-- A concrete path to a Scarb manifest. -/
def pathB : FsPath := FsPath.mk true [wsA, SCARB_TOML]

/-- A concrete path with a file name outside the allow-list. -/
def pathBad : FsPath := FsPath.mk true [wsA, txtName]

/-- The digestible identity of pathA. -/
def dgbA : Digestible := Digestible.mk pathA

/-- The digestible identity of pathB. -/
def dgbB : Digestible := Digestible.mk pathB

/-- A concrete stand-in for the external 64-bit hash function. -/
def hashC : List Nat → Nat := fun bs => bs.foldl (fun a b => a * 256 + b) 0

/-- A filesystem on which every read succeeds with bytes [1, 2]. -/
def fsOkC : FsPath → ReadResult := fun _ => ReadResult.ok [1, 2]

/-- A filesystem on which every read fails with NotFound. -/
def fsNFC : FsPath → ReadResult := fun _ => ReadResult.ioFailure IoErrorKind.notFound

/-- A filesystem on which every read fails with a non-NotFound error. -/
def fsErrC : FsPath → ReadResult := fun _ => ReadResult.ioFailure IoErrorKind.other

/-- An absolutization environment that always fails. -/
def absNoneC : FsPath → Option FsPath := fun _ => none

/-- A concrete database state whose interner holds exactly dgbA. -/
def dbC : Db := Db.mk [dgbA] 0

/-! ## Interner lemmas -/

theorem intern_digest_get (tbl : List Digestible) (d : Digestible) :
    (intern_digest tbl d).2.get? (intern_digest tbl d).1 = some d := by
  induction tbl with
  | nil => rfl
  | cons x xs ih =>
    by_cases h : x = d
    · simp [intern_digest, h]
    · simpa [intern_digest, h] using ih

theorem intern_digest_preserve (tbl : List Digestible) (d y : Digestible)
    (i : Nat) (h : tbl.get? i = some y) :
    (intern_digest tbl d).2.get? i = some y := by
  induction tbl generalizing i with
  | nil => simp at h
  | cons x xs ih =>
    by_cases hx : x = d
    · simpa [intern_digest, hx] using h
    · cases i with
      | zero => simpa [intern_digest, hx] using h
      | succ j =>
        simp only [intern_digest, hx, if_false, List.get?_cons_succ]
        exact ih j (by simpa using h)

theorem intern_digest_idem (tbl : List Digestible) (d : Digestible) :
    (intern_digest (intern_digest tbl d).2 d).1 = (intern_digest tbl d).1 := by
  induction tbl with
  | nil => simp [intern_digest]
  | cons x xs ih =>
    by_cases hx : x = d
    · simp [intern_digest, hx]
    · simp [intern_digest, hx, ih]

/-- Claim C8: interning of trackable identities is total (the function
returns a handle for every table and identity, with no error case) and
idempotent: interning the same identity twice yields the same handle,
interning a second, unequal identity yields a different handle, and
looking up the handle produced by interning returns the identity that
was interned. -/
theorem intern_spec (tbl : List Digestible) (d1 d2 : Digestible) :
    (intern_digest (intern_digest tbl d1).2 d1).1 = (intern_digest tbl d1).1 ∧
    (intern_digest tbl d1).2.get? (intern_digest tbl d1).1 = some d1 ∧
    (d1 ≠ d2 →
      (intern_digest (intern_digest tbl d1).2 d2).1 ≠ (intern_digest tbl d1).1) := by
  refine ⟨intern_digest_idem tbl d1, intern_digest_get tbl d1, ?_⟩
  intro hne heq
  have h1 := intern_digest_get tbl d1
  have h2 := intern_digest_get (intern_digest tbl d1).2 d2
  have h3 := intern_digest_preserve (intern_digest tbl d1).2 d2 d1
    (intern_digest tbl d1).1 h1
  rw [heq] at h2
  rw [h3] at h2
  exact hne (Option.some.inj h2)

/-- Witness for C8 at a concrete table and two concrete identities. -/
theorem intern_spec_witness :
    (intern_digest (intern_digest [] dgbA).2 dgbB).1 ≠ (intern_digest [] dgbA).1 :=
  (intern_spec [] dgbA dgbB).2.2 (by decide)

/-- Claim C5: Digestible.try_new returns none for every path whose file
name is missing or outside the allow-list of the project manifest, Scarb
manifest and Scarb lock names, and returns some for every path whose
file name is allow-listed, independent of the containing directory; for
accepted paths it uses the absolutized path when absolutization
succeeds and falls back to the original raw path when it fails, so the
call never fails for an allow-listed file name. -/
theorem try_new_allowlist (absPath : FsPath → Option FsPath) (p : FsPath) :
    (p.fileName = none → Digestible.try_new absPath p = none) ∧
    (∀ name, p.fileName = some name →
      name ≠ PROJECT_FILE_NAME → name ≠ SCARB_TOML → name ≠ SCARB_LOCK →
      Digestible.try_new absPath p = none) ∧
    (∀ name, p.fileName = some name →
      (name = PROJECT_FILE_NAME ∨ name = SCARB_TOML ∨ name = SCARB_LOCK) →
      Digestible.try_new absPath p = some (Digestible.mk ((absPath p).getD p))) := by
  refine ⟨?_, ?_, ?_⟩
  · intro h
    simp [Digestible.try_new, h]
  · intro name h h1 h2 h3
    simp [Digestible.try_new, h, h1, h2, h3]
  · intro name h hmem
    simp only [Digestible.try_new, h]
    rw [if_pos hmem]

/-- Witness for C5: the allow-listed name is accepted even though
absolutization fails, falling back to the raw path. -/
theorem try_new_allowlist_witness :
    Digestible.try_new absNoneC pathA = some (Digestible.mk pathA) :=
  (try_new_allowlist absNoneC pathA).2.2 PROJECT_FILE_NAME (by decide)
    (Or.inl rfl)

/-! ## Digest computation lemmas -/

theorem digest_trace_shape (hash : List Nat → Nat) (fs : FsPath → ReadResult)
    (db : Db) (id : Nat) (dg : Digest) (db2 : Db) (evs : List Event)
    (h : digest hash fs db id = some (dg, db2, evs)) :
    ∃ p, evs = [Event.syntheticRead Durability.LOW, Event.fsRead p] := by
  cases hlk : lookup_intern_digest db.interner id with
  | none => simp [digest, hlk] at h
  | some dgb =>
    refine ⟨dgb.path, ?_⟩
    cases hr : fs dgb.path with
    | ok bytes =>
      simp [digest, hlk, hr] at h
      exact h.2.2.symm
    | ioFailure k =>
      cases k with
      | notFound =>
        simp [digest, hlk, hr] at h
        exact h.2.2.symm
      | other =>
        simp [digest, hlk, hr] at h
        exact h.2.2.symm

/-- Claim C2: on an interned handle the digest computation classifies the
file read into exactly three cases: a successful read yields Ok of the
64-bit hash of the full byte content, a not-found failure yields
FileNotFound, and any other I/O failure yields IoError with the fresh
nonce drawn from the counter; moreover two reads yielding identical
bytes yield equal Ok digests, even across databases and filesystems. -/
theorem digest_classification (hash : List Nat → Nat) (fs : FsPath → ReadResult)
    (db : Db) (id : Nat) (dgb : Digestible)
    (hlk : lookup_intern_digest db.interner id = some dgb) :
    (∀ bytes, fs dgb.path = ReadResult.ok bytes →
      digest hash fs db id =
        some (Digest.ok (hash bytes % USIZE), db,
          [Event.syntheticRead Durability.LOW, Event.fsRead dgb.path])) ∧
    (fs dgb.path = ReadResult.ioFailure IoErrorKind.notFound →
      digest hash fs db id =
        some (Digest.file_not_found, db,
          [Event.syntheticRead Durability.LOW, Event.fsRead dgb.path])) ∧
    (fs dgb.path = ReadResult.ioFailure IoErrorKind.other →
      digest hash fs db id =
        some (Digest.mk (DigestKind.IoError db.counter),
          Db.mk db.interner ((db.counter + 1) % USIZE),
          [Event.syntheticRead Durability.LOW, Event.fsRead dgb.path])) ∧
    (∀ fs2 db2 id2 dgb2 bytes,
      lookup_intern_digest db2.interner id2 = some dgb2 →
      fs dgb.path = ReadResult.ok bytes →
      fs2 dgb2.path = ReadResult.ok bytes →
      (digest hash fs db id).map (fun t => t.1) =
        (digest hash fs2 db2 id2).map (fun t => t.1)) := by
  refine ⟨?_, ?_, ?_, ?_⟩
  · intro bytes hr
    simp [digest, hlk, hr]
  · intro hr
    simp [digest, hlk, hr]
  · intro hr
    simp [digest, hlk, hr, Digest.io_error]
  · intro fs2 db2 id2 dgb2 bytes h2 hr1 hr2
    simp [digest, hlk, h2, hr1, hr2]

/-- Witness for C2 at a concrete database, handle and filesystem on
which the read succeeds. -/
theorem digest_classification_witness :
    digest hashC fsOkC dbC 0 =
      some (Digest.ok (hashC [1, 2] % USIZE), dbC,
        [Event.syntheticRead Durability.LOW, Event.fsRead dgbA.path]) :=
  (digest_classification hashC fsOkC dbC 0 dgbA rfl).1 [1, 2] rfl

/-- Claim C6: on every invocation of the digest computation that
returns — whatever the outcome kind — the synthetic LOW-durability read
report is the first emitted event, preceding the filesystem read, and
the whole trace is emitted before the function returns. -/
theorem digest_reports_synthetic_read (hash : List Nat → Nat)
    (fs : FsPath → ReadResult) (db : Db) (id : Nat) (dg : Digest) (db2 : Db)
    (evs : List Event) (h : digest hash fs db id = some (dg, db2, evs)) :
    evs.head? = some (Event.syntheticRead Durability.LOW) ∧
    ∃ p, evs = [Event.syntheticRead Durability.LOW, Event.fsRead p] := by
  obtain ⟨p, hp⟩ := digest_trace_shape hash fs db id dg db2 evs h
  subst hp
  exact ⟨rfl, p, rfl⟩

/-- Witness for C6 at a concrete invocation that ends in an I/O error. -/
theorem digest_reports_synthetic_read_witness :
    ([Event.syntheticRead Durability.LOW,
        Event.fsRead dgbA.path] : List Event).head? =
      some (Event.syntheticRead Durability.LOW) ∧
    ∃ p, ([Event.syntheticRead Durability.LOW, Event.fsRead dgbA.path] :
        List Event) = [Event.syntheticRead Durability.LOW, Event.fsRead p] :=
  digest_reports_synthetic_read hashC fsErrC dbC 0
    (Digest.mk (DigestKind.IoError 0)) (Db.mk [dgbA] (1 % USIZE))
    [Event.syntheticRead Durability.LOW, Event.fsRead dgbA.path] (by decide)

/-- Claim C9: all FileNotFound digests are equal to one another — any two
digest computations on absent files, for any handles, databases, hash
functions and filesystems, yield the same digest value, and that value
is unequal to every digest the I/O-error constructor can produce. -/
theorem file_not_found_digests_equal (hash1 : List Nat → Nat)
    (fs1 : FsPath → ReadResult) (db1 : Db) (id1 : Nat) (dgb1 : Digestible)
    (h1 : lookup_intern_digest db1.interner id1 = some dgb1)
    (hr1 : fs1 dgb1.path = ReadResult.ioFailure IoErrorKind.notFound)
    (hash2 : List Nat → Nat) (fs2 : FsPath → ReadResult) (db2 : Db) (id2 : Nat)
    (dgb2 : Digestible)
    (h2 : lookup_intern_digest db2.interner id2 = some dgb2)
    (hr2 : fs2 dgb2.path = ReadResult.ioFailure IoErrorKind.notFound) :
    ∃ d : Digest,
      (digest hash1 fs1 db1 id1).map (fun t => t.1) = some d ∧
      (digest hash2 fs2 db2 id2).map (fun t => t.1) = some d ∧
      d = Digest.file_not_found ∧
      ∀ c : Nat, d ≠ (Digest.io_error c).1 := by
  refine ⟨Digest.file_not_found, ?_, ?_, rfl, ?_⟩
  · simp [digest, h1, hr1]
  · simp [digest, h2, hr2]
  · intro c
    simp [Digest.io_error, Digest.file_not_found]

/-- Witness for C9 at two concrete computations over absent files. -/
theorem file_not_found_digests_equal_witness :
    ∃ d : Digest,
      (digest hashC fsNFC dbC 0).map (fun t => t.1) = some d ∧
      (digest (fun _ => 5) fsNFC (Db.mk [dgbB] 9) 0).map (fun t => t.1) =
        some d ∧
      d = Digest.file_not_found ∧
      ∀ c : Nat, d ≠ (Digest.io_error c).1 :=
  file_not_found_digests_equal hashC fsNFC dbC 0 dgbA rfl rfl
    (fun _ => 5) fsNFC (Db.mk [dgbB] 9) 0 dgbB rfl rfl

/-! ## Nonce counter lemmas -/

theorem ioErrorTrace_counter (n : Nat) : (ioErrorTrace n).2 = n % USIZE := by
  induction n with
  | zero => simp [ioErrorTrace]
  | succ n ih =>
    simp only [ioErrorTrace, Digest.io_error, ih]
    have h1 : 1 % USIZE = 1 := Nat.mod_eq_of_lt (by norm_num [USIZE])
    rw [Nat.add_mod n 1 USIZE, h1]

theorem ioErrorTrace_length (n : Nat) : (ioErrorTrace n).1.length = n := by
  induction n with
  | zero => rfl
  | succ n ih => simp [ioErrorTrace, ih]

theorem ioErrorTrace_get (n k : Nat) (h : k < n) :
    (ioErrorTrace n).1.get? k =
      some (Digest.mk (DigestKind.IoError (k % USIZE))) := by
  induction n with
  | zero => omega
  | succ n ih =>
    rcases Nat.lt_succ_iff_lt_or_eq.mp h with h2 | h2
    · have hlen : k < (ioErrorTrace n).1.length := by
        rw [ioErrorTrace_length]
        exact h2
      simp only [ioErrorTrace]
      rw [List.get?_append hlen]
      exact ih h2
    · have hget := List.get?_concat_length (ioErrorTrace n).1
        (Digest.mk (DigestKind.IoError (n % USIZE)))
      rw [ioErrorTrace_length] at hget
      rw [h2]
      simp only [ioErrorTrace, Digest.io_error, ioErrorTrace_counter]
      exact hget

/-- Claim C1: over a process run of n invocations of Digest::io_error
that stays within the usize value space, the nonce drawn at each later
invocation strictly exceeds every earlier one (the trace at position k
carries nonce k), any two distinct invocations yield unequal digests,
and every IoError digest is unequal to every Ok digest and to the
FileNotFound digest. -/
theorem io_error_digest_freshness (n i j : Nat) (hij : i < j) (hjn : j < n)
    (hn : n ≤ USIZE) :
    (ioErrorTrace n).1.get? i = some (Digest.mk (DigestKind.IoError i)) ∧
    (ioErrorTrace n).1.get? j = some (Digest.mk (DigestKind.IoError j)) ∧
    i < j ∧
    Digest.mk (DigestKind.IoError i) ≠ Digest.mk (DigestKind.IoError j) ∧
    (∀ h : Nat, Digest.mk (DigestKind.IoError j) ≠ Digest.ok h) ∧
    Digest.mk (DigestKind.IoError j) ≠ Digest.file_not_found := by
  have hi : i % USIZE = i :=
    Nat.mod_eq_of_lt (Nat.lt_of_lt_of_le (Nat.lt_trans hij hjn) hn)
  have hj : j % USIZE = j :=
    Nat.mod_eq_of_lt (Nat.lt_of_lt_of_le hjn hn)
  refine ⟨?_, ?_, hij, ?_, ?_, ?_⟩
  · rw [ioErrorTrace_get n i (Nat.lt_trans hij hjn), hi]
  · rw [ioErrorTrace_get n j hjn, hj]
  · simpa using Nat.ne_of_lt hij
  · intro h
    simp [Digest.ok]
  · simp [Digest.file_not_found]

/-- Witness for C1 over a concrete run of three forced I/O errors. -/
theorem io_error_digest_freshness_witness :
    (ioErrorTrace 3).1.get? 0 = some (Digest.mk (DigestKind.IoError 0)) ∧
    (ioErrorTrace 3).1.get? 1 = some (Digest.mk (DigestKind.IoError 1)) ∧
    0 < 1 ∧
    Digest.mk (DigestKind.IoError 0) ≠ Digest.mk (DigestKind.IoError 1) ∧
    (∀ h : Nat, Digest.mk (DigestKind.IoError 1) ≠ Digest.ok h) ∧
    Digest.mk (DigestKind.IoError 1) ≠ Digest.file_not_found :=
  io_error_digest_freshness 3 0 1 (by decide) (by decide)
    (by norm_num [USIZE])

/-! ## Dependency reporting -/

/-- Claim C7: report_digest_dependency first applies Digestible.try_new;
on rejection it logs an error and returns with the database state
unchanged and without invoking the digest computation (the only emitted
event is the error log); on acceptance it interns the identity, the
digest query on the resulting handle succeeds (it is never the foreign
handle case), and its resulting state and events are those of the call;
in both cases the call is total and propagates no failure value. -/
theorem report_digest_dependency_spec (hash : List Nat → Nat)
    (fs : FsPath → ReadResult) (absPath : FsPath → Option FsPath) (db : Db)
    (path : FsPath) :
    (Digestible.try_new absPath path = none →
      report_digest_dependency hash fs absPath db path =
        (db, [Event.logError])) ∧
    (∀ dgb, Digestible.try_new absPath path = some dgb →
      ∃ dg db2 evs,
        digest hash fs (Db.mk (intern_digest db.interner dgb).2 db.counter)
          (intern_digest db.interner dgb).1 = some (dg, db2, evs) ∧
        report_digest_dependency hash fs absPath db path = (db2, evs)) := by
  constructor
  · intro h
    simp [report_digest_dependency, h]
  · intro dgb hdgb
    have hget : lookup_intern_digest (intern_digest db.interner dgb).2
        (intern_digest db.interner dgb).1 = some dgb :=
      intern_digest_get db.interner dgb
    cases hdq : digest hash fs
        (Db.mk (intern_digest db.interner dgb).2 db.counter)
        (intern_digest db.interner dgb).1 with
    | none =>
      exfalso
      cases hr : fs dgb.path with
      | ok bytes => simp [digest, hget, hr] at hdq
      | ioFailure k =>
        cases k with
        | notFound => simp [digest, hget, hr] at hdq
        | other => simp [digest, hget, hr] at hdq
    | some q =>
      refine ⟨q.1, q.2.1, q.2.2, ?_, ?_⟩
      · rfl
      · simp [report_digest_dependency, hdgb, hdq]

/-- Witness for C7 at a concrete non-trackable path: the call no-ops on
an unchanged database, producing only an error log. -/
theorem report_digest_dependency_spec_witness :
    report_digest_dependency hashC fsOkC absNoneC dbC pathBad =
      (dbC, [Event.logError]) :=
  (report_digest_dependency_spec hashC fsOkC absNoneC dbC pathBad).1
    (by decide)

theorem report_digest_dependency_no_untracked (hash : List Nat → Nat)
    (fs : FsPath → ReadResult) (absPath : FsPath → Option FsPath) (db : Db)
    (path : FsPath) :
    Event.untrackedRead ∉ (report_digest_dependency hash fs absPath db path).2 := by
  unfold report_digest_dependency
  cases h : Digestible.try_new absPath path with
  | none => simp
  | some dgb =>
    cases hd : digest hash fs (Db.mk (intern_digest db.interner dgb).2 db.counter)
        (intern_digest db.interner dgb).1 with
    | none => simp [hd]
    | some q =>
      obtain ⟨p, hp⟩ := digest_trace_shape hash fs _ _ q.1 q.2.1 q.2.2
        (by rw [hd])
      simp only [hd]
      simp [hp]

/-! ## Manifest-driven crate resolution -/

/-- The name of the first declared crate in the concrete manifest. -/
def nameA : String := "a"

/-- The name of the second declared crate in the concrete manifest. -/
def nameB : String := "b"

/-- A concrete parsed manifest declaring two crates with relative roots,
with a crates-config entry only for the first. -/
def cfgC : ProjectConfig Nat :=
  ProjectConfig.mk (FsPath.mk true [wsA])
    [(nameA, FsPath.mk false [nameA]), (nameB, FsPath.mk false [nameB])]
    [(nameA, 7)] 0

/-- A manifest loader that parses successfully to cfgC. -/
def loadOkC : FsPath → Except ConfigError (ProjectConfig Nat) :=
  fun _ => Except.ok cfgC

/-- A manifest loader that fails with a deterministic parse error. -/
def loadParseErrC : FsPath → Except ConfigError (ProjectConfig Nat) :=
  fun _ => Except.error ConfigError.parseError

/-- Claim C3: when manifest processing fails, an untracked read is
reported if and only if the failure root cause is an I/O error — a
deterministic parse or schema failure reports none — and in both
failure cases project_crates returns the empty crate list. -/
theorem project_crates_failure {S : Type} (hash : List Nat → Nat)
    (fs : FsPath → ReadResult) (absPath : FsPath → Option FsPath)
    (loadConfig : FsPath → Except ConfigError (ProjectConfig S)) (db : Db)
    (mp : FsPath) (e : ConfigError) (he : loadConfig mp = Except.error e) :
    (project_crates hash fs absPath loadConfig db mp).1 = [] ∧
    (Event.untrackedRead ∈ (project_crates hash fs absPath loadConfig db mp).2.2 ↔
      e = ConfigError.ioError) := by
  constructor
  · simp [project_crates, he]
  · have hnot := report_digest_dependency_no_untracked hash fs absPath db mp
    by_cases hio : e = ConfigError.ioError
    · simp [project_crates, he, hio]
    · simp [project_crates, he, hio, hnot]

/-- Witness for C3 at a concrete deterministic parse failure: empty
crate list and no untracked read is reported. -/
theorem project_crates_failure_witness :
    (project_crates hashC fsOkC absNoneC loadParseErrC dbC pathA).1 = [] ∧
    (Event.untrackedRead ∈
        (project_crates hashC fsOkC absNoneC loadParseErrC dbC pathA).2.2 ↔
      ConfigError.parseError = ConfigError.ioError) :=
  project_crates_failure hashC fsOkC absNoneC loadParseErrC dbC pathA
    ConfigError.parseError rfl

/-- Claim C4: when the manifest parses successfully, project_crates
returns one descriptor per declared crate root in the manifest order:
the k-th descriptor carries the k-th declared name, the
manifest-relative absolute resolution of the k-th declared root, and the
crates-config entry for that name (the default settings value when the
entry is absent), and the full ordered list is the query result. -/
theorem project_crates_success {S : Type} (hash : List Nat → Nat)
    (fs : FsPath → ReadResult) (absPath : FsPath → Option FsPath)
    (loadConfig : FsPath → Except ConfigError (ProjectConfig S)) (db : Db)
    (mp : FsPath) (cfg : ProjectConfig S) (hc : loadConfig mp = Except.ok cfg) :
    (project_crates hash fs absPath loadConfig db mp).1.length =
      cfg.crate_roots.length ∧
    ∀ k (hk : k < cfg.crate_roots.length),
      (project_crates hash fs absPath loadConfig db mp).1.get? k =
        some (Crate.mk (cfg.crate_roots.get ⟨k, hk⟩).1
          (cfg.absolute_crate_root (cfg.crate_roots.get ⟨k, hk⟩).2)
          none
          (cfg.crates_config_get (cfg.crate_roots.get ⟨k, hk⟩).1)) := by
  constructor
  · simp [project_crates, hc]
  · intro k hk
    have h1 : (project_crates hash fs absPath loadConfig db mp).1 =
        cfg.crate_roots.map (fun nr =>
          Crate.mk nr.1 (cfg.absolute_crate_root nr.2) none
            (cfg.crates_config_get nr.1)) := by
      simp [project_crates, hc]
    rw [h1, List.get?_map, List.get?_eq_get hk]
    rfl

/-- Witness for C4: the concrete two-crate manifest yields exactly two
descriptors. -/
theorem project_crates_success_witness :
    (project_crates hashC fsOkC absNoneC loadOkC dbC pathA).1.length =
      cfgC.crate_roots.length :=
  (project_crates_success hashC fsOkC absNoneC loadOkC dbC pathA cfgC rfl).1

/-- Claim C10: every crate descriptor returned by project_crates has its
optional custom main file stem set to none, for every crate of every
manifest. -/
theorem project_crates_custom_main_none {S : Type} (hash : List Nat → Nat)
    (fs : FsPath → ReadResult) (absPath : FsPath → Option FsPath)
    (loadConfig : FsPath → Except ConfigError (ProjectConfig S)) (db : Db)
    (mp : FsPath) :
    ∀ c ∈ (project_crates hash fs absPath loadConfig db mp).1,
      c.custom_main_file_stem = none := by
  intro c hc
  cases h : loadConfig mp with
  | error e => simp [project_crates, h] at hc
  | ok cfg =>
    simp [project_crates, h] at hc
    obtain ⟨nr, rt, hmem, heq⟩ := hc
    subst heq
    rfl

/-- Witness for C10 at the first descriptor of the concrete two-crate
manifest. -/
theorem project_crates_custom_main_none_witness :
    (Crate.mk nameA (FsPath.mk true [wsA, nameA]) none 7 :
        Crate Nat).custom_main_file_stem = none :=
  project_crates_custom_main_none hashC fsOkC absNoneC loadOkC dbC pathA
    (Crate.mk nameA (FsPath.mk true [wsA, nameA]) none 7) (by decide)
